import Mathlib

/- Verification of the coverage-driven greedy team selection engine
   (team_builder.py): the type-effectiveness calculator, the coverage
   bookkeeping and the iterative pick-next-member loop.

   Multipliers are modelled as exact rationals; the Python floats involved
   (0, mkRat 1 2, 1, 2 and their pairwise products) are all dyadic and exact, so
   the model is faithful.  Randomness (random.choice over a nonempty list)
   is modelled by an oracle of natural numbers: the call numbered k picks
   the element at index orc k modulo the list length.  The while-loop is
   modelled with explicit fuel: a result of none means the loop did not
   finish within the given fuel, and divergence is expressed as returning
   none for every fuel. -/

abbrev TypeLabel := String

/-- Exact rational multiplication through mkRat, used instead of the
irreducible Rat multiplication so that concrete runs evaluate inside the
kernel; it is proved below (ratMul_eq) to agree with multiplication on the
rationals, so the model stays the multiplicative one of the source. -/
def ratMul (a b : ℚ) : ℚ := mkRat (a.num * b.num) (a.den * b.den)

/-- The TYPE_CHART constant: defending type to (attacking type to multiplier). -/
def TYPE_CHART : List (TypeLabel × List (TypeLabel × ℚ)) := [
  ("normal", [("ghost", 0), ("rock", mkRat 1 2), ("steel", mkRat 1 2), ("fighting", 2)]),
  ("fire", [("fire", mkRat 1 2), ("water", 2), ("grass", mkRat 1 2), ("ice", mkRat 1 2), ("bug", mkRat 1 2),
            ("rock", 2), ("dragon", mkRat 1 2), ("steel", mkRat 1 2), ("ground", 2)]),
  ("water", [("fire", mkRat 1 2), ("water", mkRat 1 2), ("grass", 2), ("electric", 2), ("ice", mkRat 1 2),
             ("steel", mkRat 1 2)]),
  ("electric", [("water", mkRat 1 2), ("electric", mkRat 1 2), ("flying", mkRat 1 2), ("ground", 2),
                ("dragon", mkRat 1 2)]),
  ("grass", [("fire", 2), ("water", mkRat 1 2), ("grass", mkRat 1 2), ("poison", 2), ("ground", mkRat 1 2),
             ("flying", 2), ("bug", 2), ("ice", 2), ("dragon", mkRat 1 2), ("steel", 2)]),
  ("ice", [("fire", 2), ("ice", mkRat 1 2), ("fighting", 2), ("rock", 2), ("steel", 2)]),
  ("fighting", [("normal", mkRat 1 2), ("ice", mkRat 1 2), ("poison", mkRat 1 2), ("flying", 2),
                ("psychic", 2), ("bug", mkRat 1 2), ("rock", mkRat 1 2), ("dark", mkRat 1 2), ("steel", mkRat 1 2),
                ("fairy", 2)]),
  ("poison", [("grass", mkRat 1 2), ("poison", mkRat 1 2), ("ground", 2), ("psychic", 2), ("bug", mkRat 1 2),
              ("fairy", mkRat 1 2), ("steel", 0)]),
  ("ground", [("fire", mkRat 1 2), ("electric", 0), ("grass", 2), ("poison", mkRat 1 2), ("flying", 0),
              ("bug", mkRat 1 2), ("rock", mkRat 1 2), ("water", 2), ("ice", 2)]),
  ("flying", [("electric", 2), ("grass", mkRat 1 2), ("fighting", mkRat 1 2), ("bug", mkRat 1 2), ("rock", 2),
              ("ice", 2), ("ground", 0)]),
  ("psychic", [("fighting", mkRat 1 2), ("psychic", mkRat 1 2), ("bug", 2), ("ghost", 2), ("dark", 2)]),
  ("bug", [("fire", 2), ("grass", mkRat 1 2), ("fighting", mkRat 1 2), ("poison", mkRat 1 2), ("flying", 2),
           ("rock", 2), ("steel", mkRat 1 2), ("fairy", mkRat 1 2)]),
  ("rock", [("normal", mkRat 1 2), ("fire", mkRat 1 2), ("water", 2), ("grass", 2), ("fighting", 2),
            ("poison", mkRat 1 2), ("ground", 2), ("flying", mkRat 1 2), ("steel", 2)]),
  ("ghost", [("normal", 0), ("fighting", 0), ("poison", mkRat 1 2), ("bug", mkRat 1 2), ("ghost", 2),
             ("dark", 2)]),
  ("dragon", [("dragon", 2), ("steel", mkRat 1 2), ("fairy", 2), ("ice", 2)]),
  ("dark", [("fighting", 2), ("psychic", 0), ("bug", 2), ("ghost", mkRat 1 2), ("dark", mkRat 1 2),
            ("fairy", 2)]),
  ("steel", [("normal", mkRat 1 2), ("fire", 2), ("grass", mkRat 1 2), ("ice", mkRat 1 2), ("fighting", 2),
             ("poison", 0), ("ground", 2), ("flying", mkRat 1 2), ("psychic", mkRat 1 2), ("bug", mkRat 1 2),
             ("rock", mkRat 1 2), ("dragon", mkRat 1 2), ("steel", mkRat 1 2), ("fairy", mkRat 1 2)]),
  ("fairy", [("fighting", mkRat 1 2), ("poison", 2), ("bug", mkRat 1 2), ("dragon", 0), ("dark", mkRat 1 2),
             ("steel", 2)])]

/-- The COVERAGE_REQUIREMENTS constant, in its source insertion order. -/
def COVERAGE_REQUIREMENTS : List (TypeLabel × Nat) :=
  [("water", 2), ("fighting", 2), ("dragon", 2), ("flying", 1), ("electric", 2),
   ("ground", 2), ("dark", 1)]

/-- A build entry of the database: either a bare string (old format) or an
object with a build payload and an optional teamFit tag list (new format). -/
inductive Build where
  | old (payload : String)
  | obj (payload : String) (teamFit : Option (List String))
deriving DecidableEq, Repr

/-- The build payload extracted by get_random_build from a chosen entry. -/
def Build.payload : Build → String
  | .old s => s
  | .obj s _ => s

/-- The per-build playstyle test: isinstance dict, has a teamFit key, and the
playstyle occurs in the teamFit array. -/
def Build.matches_tag (b : Build) (tag : String) : Bool :=
  match b with
  | .old _ => false
  | .obj _ none => false
  | .obj _ (some tags) => tags.contains tag

structure Pokemon where
  name : String
  types : List TypeLabel
  builds : List Build
deriving DecidableEq, Repr

/-- Python truthiness of the optional team_playstyle string: None and the
empty string are falsy. -/
def strTruthy : Option String → Bool
  | none => false
  | some s => !(s == "")

/-- Pokemon.has_matching_playstyle. -/
def Pokemon.has_matching_playstyle (p : Pokemon) (ps : Option String) : Bool :=
  if strTruthy ps then p.builds.any (fun b => b.matches_tag (ps.getD ""))
  else true

/-- The filtered build list used by get_random_build when a playstyle is
supplied. -/
def matching_builds (p : Pokemon) (tag : String) : List Build :=
  p.builds.filter (fun b => b.matches_tag tag)

/-- Model of random.choice over a nonempty list: the oracle value n selects
index n modulo the length. -/
def pick {α : Type} (x : α) (xs : List α) (n : Nat) : α :=
  (x :: xs).getD (n % (x :: xs).length) x

/-- Pokemon.get_random_build: filters builds by playstyle when one is
supplied, then draws one; none models the IndexError that random.choice
raises on an empty candidate list. -/
def Pokemon.get_random_build (p : Pokemon) (ps : Option String) (n : Nat) : Option String :=
  match (if strTruthy ps then matching_builds p (ps.getD "") else p.builds) with
  | [] => none
  | b :: bs => some (Build.payload (pick b bs n))

/-- Lookup of TYPE_CHART at a defending and an attacking type; none models
the pair being absent (either key test failing in the source). -/
def chartLookup (poke_type attack_type : TypeLabel) : Option ℚ :=
  (TYPE_CHART.lookup poke_type).bind (fun row => row.lookup attack_type)

/-- Pokemon.resists_type: multiply the chart entry of every defending type
that is present in the chart, starting from 1. -/
def Pokemon.resists_type (p : Pokemon) (attack_type : TypeLabel) : ℚ :=
  p.types.foldl (fun effectiveness poke_type =>
    match chartLookup poke_type attack_type with
    | some e => ratMul effectiveness e
    | none => effectiveness) 1

/-- TeamBuilder.get_pokemon_with_resistance: remaining entities matching the
playstyle whose multiplier against the attack type is strictly below 1. -/
def get_pokemon_with_resistance (pokemon_list : List Pokemon) (attack_type : TypeLabel)
    (team : List Pokemon) (ps : Option String) : List Pokemon :=
  pokemon_list.filter (fun p =>
    !((team.map Pokemon.name).contains p.name) &&
    !(strTruthy ps && !(p.has_matching_playstyle ps)) &&
    decide (p.resists_type attack_type < 1))

/-- TeamBuilder.get_pokemon_with_immunity: remaining entities matching the
playstyle whose multiplier against the attack type is exactly 0. -/
def get_pokemon_with_immunity (pokemon_list : List Pokemon) (attack_type : TypeLabel)
    (team : List Pokemon) (ps : Option String) : List Pokemon :=
  pokemon_list.filter (fun p =>
    !((team.map Pokemon.name).contains p.name) &&
    !(strTruthy ps && !(p.has_matching_playstyle ps)) &&
    decide (p.resists_type attack_type = 0))

/-- COVERAGE_REQUIREMENTS lookup, as the source writes COVERAGE_REQUIREMENTS
at a key that is always present in the tracked coverage mapping. -/
def reqOf (t : TypeLabel) : Nat :=
  (COVERAGE_REQUIREMENTS.lookup t).getD 0

/-- Coverage mapping lookup (coverage at a tracked key). -/
def covLookup (cov : List (TypeLabel × Nat)) (t : TypeLabel) : Nat :=
  (cov.lookup t).getD 0

/-- The per-entry coverage update: immune jumps to the full requirement,
resistant increments by one, neutral-or-weak leaves the count unchanged. -/
def cov_update_entry (p : Pokemon) (t : TypeLabel) (c : Nat) : Nat :=
  if p.resists_type t = 0 then reqOf t
  else if p.resists_type t < 1 then c + 1
  else c

/-- The coverage update loop run after appending an entity in the resistant
and padding branches: updates every tracked category. -/
def update_coverage (cov : List (TypeLabel × Nat)) (p : Pokemon) : List (TypeLabel × Nat) :=
  cov.map (fun tc => (tc.1, cov_update_entry p tc.1 tc.2))

/-- The assignment coverage at priority_type set to its full requirement,
used by the ground-immunity branch. -/
def set_full (cov : List (TypeLabel × Nat)) (pt : TypeLabel) : List (TypeLabel × Nat) :=
  cov.map (fun tc => (tc.1, if tc.1 = pt then reqOf pt else tc.2))

/-- The unfulfilled dict comprehension: requirement entries whose coverage
count is still strictly below the required count, in insertion order. -/
def unfulfilled_of (cov : List (TypeLabel × Nat)) : List (TypeLabel × Nat) :=
  COVERAGE_REQUIREMENTS.filter (fun tc => covLookup cov tc.1 < tc.2)

/-- The max key function: required count minus current coverage count. -/
def gap (cov : List (TypeLabel × Nat)) (tc : TypeLabel × Nat) : Int :=
  (tc.2 : Int) - (covLookup cov tc.1 : Int)

/-- Python max over a nonempty list with a key function: keeps the first
element among ties, replacing the accumulator only on a strictly larger key. -/
def maxByFirst {α : Type} (f : α → Int) : α → List α → α
  | acc, [] => acc
  | acc, x :: xs => maxByFirst f (if f x > f acc then x else acc) xs

/-- The priority type chosen from a coverage state: the first largest-gap
unfulfilled requirement, none when every requirement is met. -/
def priority_of (cov : List (TypeLabel × Nat)) : Option TypeLabel :=
  match unfulfilled_of cov with
  | [] => none
  | u :: us => some (maxByFirst (gap cov) u us).1

/-- State of one build_team run: the team so far, the coverage mapping, and
the number of random.choice calls made so far (the oracle cursor). -/
structure BTState where
  team : List Pokemon
  coverage : List (TypeLabel × Nat)
  k : Nat
deriving DecidableEq, Repr

/-- Result of one pass of the while-loop body: done means the body executed
break, cont carries the state at the next loop test. -/
inductive StepResult where
  | done (team : List Pokemon)
  | cont (s : BTState)
deriving DecidableEq, Repr

/-- The remaining_pokemon list of the padding branches: every catalog entity
whose name is not already on the team, with no playstyle filtering. -/
def remaining_pool (pokemon_list : List Pokemon) (team : List Pokemon) : List Pokemon :=
  pokemon_list.filter (fun p => !((team.map Pokemon.name).contains p.name))

/-- The padding branch shared by lines 246-260 and 282-297: break when no
entity remains, else append a random remaining entity and update coverage. -/
def pad_step (pokemon_list : List Pokemon) (orc : Nat → Nat) (s : BTState) : StepResult :=
  match remaining_pool pokemon_list s.team with
  | [] => .done s.team
  | q :: qs =>
      .cont ⟨s.team ++ [pick q qs (orc s.k)],
             update_coverage s.coverage (pick q qs (orc s.k)), s.k + 1⟩

/-- One pass of the build_team while-loop body (run only while the team has
fewer than 6 members). -/
def build_team_step (pokemon_list : List Pokemon) (ps : Option String) (orc : Nat → Nat)
    (s : BTState) : StepResult :=
  match unfulfilled_of s.coverage with
  | [] => pad_step pokemon_list orc s
  | u :: us =>
      match (if (maxByFirst (gap s.coverage) u us).1 = "ground" ∧
                covLookup s.coverage (maxByFirst (gap s.coverage) u us).1 = 0
             then get_pokemon_with_immunity pokemon_list
                    (maxByFirst (gap s.coverage) u us).1 s.team ps
             else []) with
      | q :: qs =>
          .cont ⟨s.team ++ [pick q qs (orc s.k)],
                 set_full s.coverage (maxByFirst (gap s.coverage) u us).1, s.k + 1⟩
      | [] =>
          match get_pokemon_with_resistance pokemon_list
                  (maxByFirst (gap s.coverage) u us).1 s.team ps with
          | [] =>
              match us with
              | [] => pad_step pokemon_list orc s
              | _ :: _ => .cont s
          | q :: qs =>
              .cont ⟨s.team ++ [pick q qs (orc s.k)],
                     update_coverage s.coverage (pick q qs (orc s.k)), s.k + 1⟩

/-- The build_team while-loop with explicit fuel: none means the loop had
not terminated after the given number of passes. -/
def build_team_loop (pokemon_list : List Pokemon) (ps : Option String) (orc : Nat → Nat) :
    Nat → BTState → Option (List Pokemon)
  | 0, _ => none
  | fuel + 1, s =>
      if s.team.length < 6 then
        match build_team_step pokemon_list ps orc s with
        | .done t => some t
        | .cont s' => build_team_loop pokemon_list ps orc fuel s'
      else
        some s.team

/-- The initial state of a build_team run: empty team, every tracked
category at count zero, oracle cursor at zero. -/
def initState : BTState :=
  ⟨[], COVERAGE_REQUIREMENTS.map (fun tc => (tc.1, 0)), 0⟩

/-- TeamBuilder.build_team, fuelled. -/
def build_team (pokemon_list : List Pokemon) (ps : Option String) (orc : Nat → Nat)
    (fuel : Nat) : Option (List Pokemon) :=
  build_team_loop pokemon_list ps orc fuel initState

/-- The state reached after n passes of the while-loop body (stopping early
at a break or once the team is full), used to observe intermediate states. -/
def run_steps (pokemon_list : List Pokemon) (ps : Option String) (orc : Nat → Nat) :
    Nat → BTState → BTState
  | 0, s => s
  | n + 1, s =>
      if s.team.length < 6 then
        match build_team_step pokemon_list ps orc s with
        | .done _ => s
        | .cont s' => run_steps pokemon_list ps orc n s'
      else s

/-- A balance-tagged build helper for the concrete catalog entries. -/
def bal (s : String) : Build := Build.obj s (some ["balance"])

def rotom : Pokemon := ⟨"rotom-wash", ["electric"], [bal "Rotom-Wash set"]⟩

def clefable : Pokemon := ⟨"clefable", ["fairy"], [bal "Clefable set"]⟩

def tornadus : Pokemon := ⟨"tornadus-therian", ["flying"], [bal "Tornadus set"]⟩

def pikachu : Pokemon := ⟨"pikachu", ["electric"], [bal "Pikachu set"]⟩

def gengar : Pokemon := ⟨"gengar", ["ghost"], [bal "Gengar set"]⟩

def sylveon : Pokemon := ⟨"sylveon", ["fairy"], [bal "Sylveon set"]⟩

def snorlax : Pokemon := ⟨"snorlax", ["normal"], [Build.old "Snorlax set"]⟩

def missingno : Pokemon := ⟨"missingno", ["glitch", "bird"], [Build.old "Missingno set"]⟩

/-- The six-entity catalog used for the concrete terminating run. -/
def demo_catalog : List Pokemon := [rotom, clefable, tornadus, pikachu, gengar, sylveon]

/-- The oracle that always picks the first candidate. -/
def orc0 : Nat → Nat := fun _ => 0


/-- ratMul is multiplication on the rationals. -/
theorem ratMul_eq (a b : ℚ) : ratMul a b = a * b := by
  unfold ratMul
  rw [Rat.mkRat_eq_div]
  push_cast
  rw [show ((a.num : ℚ) * (b.num : ℚ) / ((a.den : ℚ) * (b.den : ℚ))) =
        ((a.num : ℚ) / (a.den : ℚ)) * ((b.num : ℚ) / (b.den : ℚ)) from
      (div_mul_div_comm _ _ _ _).symm,
    Rat.num_div_den, Rat.num_div_den]

/-- The modelled random.choice always returns a member of its list. -/
theorem pick_mem {α : Type} (x : α) (xs : List α) (n : Nat) : pick x xs n ∈ x :: xs := by
  have h : n % (x :: xs).length < (x :: xs).length := Nat.mod_lt _ (by simp)
  unfold pick
  rw [List.getD_eq_getElem _ _ h]
  exact List.getElem_mem h

/-- Looking a key up after a key-preserving entrywise map applies the entry
function under the lookup. -/
theorem lookup_map_entry (f : TypeLabel → Nat → Nat) (cov : List (TypeLabel × Nat))
    (t : TypeLabel) :
    List.lookup t (cov.map (fun tc => (tc.1, f tc.1 tc.2))) = (List.lookup t cov).map (f t) := by
  induction cov with
  | nil => rfl
  | cons hd tl ih =>
      obtain ⟨k, c⟩ := hd
      simp only [List.map_cons, List.lookup_cons]
      cases h : t == k
      · simpa [h] using ih
      · have : t = k := by simpa using h
        simp [h, this]

/-- Membership in the resistance pool: catalog membership, a name not yet on
the team, passing the playstyle gate, and a multiplier strictly below 1. -/
theorem mem_resistance_pool {pl team : List Pokemon} {ps : Option String}
    {t : TypeLabel} {p : Pokemon} (h : p ∈ get_pokemon_with_resistance pl t team ps) :
    p ∈ pl ∧ ((team.map Pokemon.name).contains p.name) = false ∧
      (strTruthy ps && !(p.has_matching_playstyle ps)) = false ∧
      p.resists_type t < 1 := by
  obtain ⟨hmem, hpred⟩ := List.mem_filter.mp h
  simp only [Bool.and_eq_true, Bool.not_eq_true', decide_eq_true_eq] at hpred
  exact ⟨hmem, hpred.1.1, hpred.1.2, hpred.2⟩

/-- Membership in the immunity pool: catalog membership, a name not yet on
the team, passing the playstyle gate, and a multiplier of exactly 0. -/
theorem mem_immunity_pool {pl team : List Pokemon} {ps : Option String}
    {t : TypeLabel} {p : Pokemon} (h : p ∈ get_pokemon_with_immunity pl t team ps) :
    p ∈ pl ∧ ((team.map Pokemon.name).contains p.name) = false ∧
      (strTruthy ps && !(p.has_matching_playstyle ps)) = false ∧
      p.resists_type t = 0 := by
  obtain ⟨hmem, hpred⟩ := List.mem_filter.mp h
  simp only [Bool.and_eq_true, Bool.not_eq_true', decide_eq_true_eq] at hpred
  exact ⟨hmem, hpred.1.1, hpred.1.2, hpred.2⟩

/-- Membership in the padding pool: catalog membership and a name not yet on
the team; no playstyle condition occurs. -/
theorem mem_remaining_pool {pl team : List Pokemon} {p : Pokemon} :
    p ∈ remaining_pool pl team ↔
      p ∈ pl ∧ ((team.map Pokemon.name).contains p.name) = false := by
  constructor
  · intro h
    obtain ⟨hmem, hpred⟩ := List.mem_filter.mp h
    simp only [Bool.not_eq_true'] at hpred
    exact ⟨hmem, hpred⟩
  · intro ⟨hmem, hname⟩
    exact List.mem_filter.mpr ⟨hmem, by simp only [hname, Bool.not_false]⟩

/-- resists_type is the product over the defending types of the chart
multiplier, a pair absent from the chart contributing the neutral factor 1. -/
theorem resists_eq_prod (p : Pokemon) (atk : TypeLabel) :
    p.resists_type atk = (p.types.map (fun t => (chartLookup t atk).getD 1)).prod := by
  have step : ∀ (ts : List TypeLabel) (a : ℚ),
      ts.foldl (fun effectiveness poke_type =>
        match chartLookup poke_type atk with
        | some e => ratMul effectiveness e
        | none => effectiveness) a = a * (ts.map (fun t => (chartLookup t atk).getD 1)).prod := by
    intro ts
    induction ts with
    | nil => intro a; simp
    | cons t ts ih =>
        intro a
        simp only [List.foldl_cons, List.map_cons, List.prod_cons, ih]
        cases h : chartLookup t atk with
        | none => simp [h, mul_assoc]
        | some e => simp [h, ratMul_eq, mul_assoc]
  unfold Pokemon.resists_type
  rw [step]
  simp

/-- A padding pass that continues appended exactly one not-yet-chosen
catalog entity and ran the coverage update loop on it. -/
theorem pad_step_cont_cases {pl : List Pokemon} {orc : Nat → Nat} {s s' : BTState}
    (h : pad_step pl orc s = .cont s') :
    ∃ p, p ∈ pl ∧ s'.team = s.team ++ [p] ∧
      ((s.team.map Pokemon.name).contains p.name) = false ∧
      s'.coverage = update_coverage s.coverage p ∧ s'.k = s.k + 1 := by
  unfold pad_step at h
  split at h
  · exact absurd h (by simp)
  · next q qs heq =>
      injection h with h
      subst h
      have hmem : pick q qs (orc s.k) ∈ remaining_pool pl s.team := by
        rw [heq]; exact pick_mem q qs (orc s.k)
      obtain ⟨hcat, hname⟩ := mem_remaining_pool.mp hmem
      exact ⟨pick q qs (orc s.k), hcat, rfl, hname, rfl, rfl⟩

/-- Case analysis of one loop pass that continues: either nothing changed
(the unsatisfiable-priority pass), or exactly one entity whose name was not
yet on the team was appended, with coverage updated either by the per-entity
update loop or by the ground-immunity full-requirement assignment. -/
theorem step_cont_cases {pl : List Pokemon} {ps : Option String} {orc : Nat → Nat}
    {s s' : BTState} (h : build_team_step pl ps orc s = .cont s') :
    s' = s ∨ ∃ p, s'.team = s.team ++ [p] ∧
      ((s.team.map Pokemon.name).contains p.name) = false ∧
      (s'.coverage = update_coverage s.coverage p ∨
        ∃ pt, s'.coverage = set_full s.coverage pt) := by
  unfold build_team_step at h
  split at h
  · obtain ⟨p, _, hteam, hname, hcov, _⟩ := pad_step_cont_cases h
    exact Or.inr ⟨p, hteam, hname, Or.inl hcov⟩
  · next u us heq =>
      split at h
      · next q qs himm =>
          injection h with h
          subst h
          have hmem : pick q qs (orc s.k) ∈
              (if (maxByFirst (gap s.coverage) u us).1 = "ground" ∧
                  covLookup s.coverage (maxByFirst (gap s.coverage) u us).1 = 0
               then get_pokemon_with_immunity pl (maxByFirst (gap s.coverage) u us).1 s.team ps
               else []) := by
            rw [himm]; exact pick_mem q qs (orc s.k)
          split at hmem
          · obtain ⟨_, hname, _, _⟩ := mem_immunity_pool hmem
            exact Or.inr ⟨pick q qs (orc s.k), rfl, hname,
              Or.inr ⟨(maxByFirst (gap s.coverage) u us).1, rfl⟩⟩
          · exact absurd hmem (by simp)
      · split at h
        · split at h
          · obtain ⟨p, _, hteam, hname, hcov, _⟩ := pad_step_cont_cases h
            exact Or.inr ⟨p, hteam, hname, Or.inl hcov⟩
          · injection h with h
            exact Or.inl h.symm
        · next q qs hres =>
            injection h with h
            subst h
            have hmem : pick q qs (orc s.k) ∈
                get_pokemon_with_resistance pl (maxByFirst (gap s.coverage) u us).1 s.team ps := by
              rw [hres]; exact pick_mem q qs (orc s.k)
            obtain ⟨_, hname, _, _⟩ := mem_resistance_pool hmem
            exact Or.inr ⟨pick q qs (orc s.k), rfl, hname, Or.inl rfl⟩

/-- Lookup after the coverage update loop applies the per-entry update. -/
theorem covLookup_update (cov : List (TypeLabel × Nat)) (p : Pokemon) (t : TypeLabel) :
    List.lookup t (update_coverage cov p) = (List.lookup t cov).map (cov_update_entry p t) := by
  unfold update_coverage
  exact lookup_map_entry (cov_update_entry p) cov t

/-- Lookup after the full-requirement assignment at pt. -/
theorem covLookup_set_full (cov : List (TypeLabel × Nat)) (pt : TypeLabel) (t : TypeLabel) :
    List.lookup t (set_full cov pt) =
      (List.lookup t cov).map (fun c => if t = pt then reqOf pt else c) := by
  unfold set_full
  exact lookup_map_entry (fun t c => if t = pt then reqOf pt else c) cov t

/-- A loop pass that continues never shrinks a coverage count except by
resetting it to the full required value of that category. -/
theorem step_coverage_mono_or_reset {pl : List Pokemon} {ps : Option String}
    {orc : Nat → Nat} {s s' : BTState} (h : build_team_step pl ps orc s = .cont s')
    (t : TypeLabel) :
    covLookup s.coverage t ≤ covLookup s'.coverage t ∨ covLookup s'.coverage t = reqOf t := by
  rcases step_cont_cases h with hs | ⟨p, _, _, hcov | ⟨pt, hcov⟩⟩
  · subst hs; exact Or.inl le_rfl
  · unfold covLookup
    rw [hcov, covLookup_update]
    cases hlu : List.lookup t s.coverage with
    | none => simp
    | some c =>
        simp only [Option.map_some, Option.getD_some]
        unfold cov_update_entry
        split
        · exact Or.inr rfl
        · split
          · exact Or.inl (Nat.le_succ c)
          · exact Or.inl le_rfl
  · unfold covLookup
    rw [hcov, covLookup_set_full]
    cases hlu : List.lookup t s.coverage with
    | none => simp
    | some c =>
        simp only [Option.map_some, Option.getD_some]
        by_cases ht : t = pt
        · subst ht; simp
        · simp [ht]

/-- A loop pass that breaks returns the team unchanged. -/
theorem step_done_team {pl : List Pokemon} {ps : Option String} {orc : Nat → Nat}
    {s : BTState} {t : List Pokemon} (h : build_team_step pl ps orc s = .done t) :
    t = s.team := by
  unfold build_team_step at h
  split at h
  · unfold pad_step at h
    split at h
    · injection h with h; exact h.symm
    · exact absurd h (by simp)
  · split at h
    · exact absurd h (by simp)
    · split at h
      · split at h
        · unfold pad_step at h
          split at h
          · injection h with h; exact h.symm
          · exact absurd h (by simp)
        · exact absurd h (by simp)
      · exact absurd h (by simp)

/-- The while-loop preserves a duplicate-free team of at most six members. -/
theorem loop_invariant {pl : List Pokemon} {ps : Option String} {orc : Nat → Nat} :
    ∀ (fuel : Nat) (s : BTState) (team : List Pokemon),
    (s.team.map Pokemon.name).Nodup → s.team.length ≤ 6 →
    build_team_loop pl ps orc fuel s = some team →
    (team.map Pokemon.name).Nodup ∧ team.length ≤ 6 := by
  intro fuel
  induction fuel with
  | zero => intro s team _ _ h; exact absurd h (by simp [build_team_loop])
  | succ n ih =>
      intro s team hnd hlen h
      unfold build_team_loop at h
      split at h
      · next hlt =>
          cases hstep : build_team_step pl ps orc s with
          | done t =>
              rw [hstep] at h
              injection h with h
              have ht := step_done_team hstep
              subst h; subst ht
              exact ⟨hnd, hlen⟩
          | cont s2 =>
              rw [hstep] at h
              rcases step_cont_cases hstep with hs | ⟨p, hteam, hname, _⟩
              · exact ih s2 team (by rw [hs]; exact hnd) (by rw [hs]; exact hlen) h
              · have hnd2 : (s2.team.map Pokemon.name).Nodup := by
                  rw [hteam, List.map_append, List.nodup_append]
                  refine ⟨hnd, List.nodup_singleton _, ?_⟩
                  intro a ha
                  simp only [List.map_cons, List.map_nil, List.mem_singleton]
                  intro hb
                  subst hb
                  have hnotin : p.name ∉ s.team.map Pokemon.name := by
                    simpa using hname
                  exact hnotin ha
                have hlen2 : s2.team.length ≤ 6 := by
                  rw [hteam, List.length_append]
                  simp only [List.length_singleton]
                  omega
                exact ih s2 team hnd2 hlen2 h
      · injection h with h
        subst h; exact ⟨hnd, hlen⟩

/-- With a catalog holding only the normal-typed entity, the first loop pass
changes nothing: the priority is water, no candidate resists it, the pass
deletes water only from the local unfulfilled copy and continues. -/
theorem step_fix_snorlax (orc : Nat → Nat) :
    build_team_step [snorlax] none orc initState = .cont initState := rfl

/-- Over the empty catalog the first loop pass also changes nothing. -/
theorem step_fix_empty (ps : Option String) (orc : Nat → Nat) :
    build_team_step [] ps orc initState = .cont initState := rfl

/-- Claim C1: the selection loop of build_team is claimed to terminate for
every catalog, bounded by targetSize passes.  The code does not: on a
catalog whose largest-gap priority category (water) has no resistant
candidate while other deficits remain, the pass deletes the priority only
from its local unfulfilled copy and continues with unchanged state, so the
next pass recomputes the same priority forever.  For every fuel bound the
loop is still running. -/
theorem build_team_diverges_nonempty_catalog :
    ∀ (orc : Nat → Nat) (fuel : Nat), build_team [snorlax] none orc fuel = none := by
  intro orc fuel
  unfold build_team
  induction fuel with
  | zero => rfl
  | succ n ih => exact ih

/-- Claim C2: an empty catalog is claimed to yield an empty selection; the
code instead never returns: every pass keeps priority water, finds no
candidate in the empty catalog, and continues with unchanged state.  For
every fuel bound the loop is still running. -/
theorem build_team_diverges_empty_catalog :
    ∀ (ps : Option String) (orc : Nat → Nat) (fuel : Nat),
    build_team [] ps orc fuel = none := by
  intro ps orc fuel
  unfold build_team
  induction fuel with
  | zero => rfl
  | succ n ih => exact ih

/-- Claim C3 counterexample: coverage counts are not monotone across
appends.  In the concrete demo run, after the fifth append the dragon count
stands at 3 (it overshot its requirement of 2 through resistant picks), and
the sixth append (sylveon, immune to dragon) resets it to 2 - a decrease. -/
theorem coverage_decreases_after_overshoot :
    (run_steps demo_catalog none orc0 5 initState).team.length = 5 ∧
    covLookup (run_steps demo_catalog none orc0 5 initState).coverage "dragon" = 3 ∧
    (run_steps demo_catalog none orc0 6 initState).team.length = 6 ∧
    covLookup (run_steps demo_catalog none orc0 6 initState).coverage "dragon" = 2 := by
  refine ⟨?_, ?_, ?_, ?_⟩ <;> decide

/-- Claim C3 amended: across every loop pass of build_team that continues,
each tracked category count either does not decrease or is reset to exactly
that category's full required value (the immune short-circuit, which can
lower a count that had already overshot its requirement). -/
theorem coverage_monotone_except_immune_reset :
    ∀ (pl : List Pokemon) (ps : Option String) (orc : Nat → Nat) (s s2 : BTState)
      (t : TypeLabel), build_team_step pl ps orc s = .cont s2 →
    covLookup s.coverage t ≤ covLookup s2.coverage t ∨
      covLookup s2.coverage t = reqOf t :=
  fun _ _ _ _ _ t h => step_coverage_mono_or_reset h t

/-- Witness for the amended C3 at the first pass of the demo run. -/
theorem coverage_monotone_except_immune_reset_witness :
    covLookup initState.coverage "dragon" ≤
      covLookup (BTState.mk [rotom]
        [("water", 1), ("fighting", 0), ("dragon", 1), ("flying", 1), ("electric", 1),
         ("ground", 0), ("dark", 0)] 1).coverage "dragon" ∨
    covLookup (BTState.mk [rotom]
        [("water", 1), ("fighting", 0), ("dragon", 1), ("flying", 1), ("electric", 1),
         ("ground", 0), ("dark", 0)] 1).coverage "dragon" = reqOf "dragon" :=
  coverage_monotone_except_immune_reset demo_catalog none orc0 initState _ "dragon" (by decide)

/-- Claim C5: whenever build_team returns, the returned team holds no two
entries with the same entity name and has at most six members. -/
theorem build_team_nodup_and_le_six :
    ∀ (pl : List Pokemon) (ps : Option String) (orc : Nat → Nat) (fuel : Nat)
      (team : List Pokemon), build_team pl ps orc fuel = some team →
    (team.map Pokemon.name).Nodup ∧ team.length ≤ 6 := by
  intro pl ps orc fuel team h
  exact loop_invariant fuel initState team (by simp [initState]) (by simp [initState]) h

/-- Witness for C5 on the terminating demo run. -/
theorem build_team_nodup_and_le_six_witness :
    (([rotom, clefable, tornadus, pikachu, gengar, sylveon].map Pokemon.name).Nodup ∧
      [rotom, clefable, tornadus, pikachu, gengar, sylveon].length ≤ 6) :=
  build_team_nodup_and_le_six demo_catalog none orc0 7 _ (by decide)

/-- Claim C4 counterexample: an entity with a build but no build matching
the requested tag makes get_random_build draw from an empty candidate list
(random.choice raises IndexError, modelled as none): there is no fallback
to the full build list. -/
theorem get_random_build_raises_on_unmatched_tag :
    snorlax.builds ≠ [] ∧ snorlax.get_random_build (some "rain") 0 = none := by
  refine ⟨?_, ?_⟩ <;> decide

/-- Claim C4 amended: with a supplied tag, get_random_build draws from the
builds whose teamFit holds the tag and returns one of their payloads
provided at least one matches; with no tag it draws from the full build
list.  When a tag is supplied and no build matches, the call fails instead
of falling back. -/
theorem get_random_build_amended :
    ∀ (p : Pokemon) (tag : String) (n : Nat) (b : Build) (bs : List Build),
    (tag ≠ "" → matching_builds p tag = b :: bs →
      p.get_random_build (some tag) n = some (Build.payload (pick b bs n)) ∧
      pick b bs n ∈ matching_builds p tag) ∧
    (p.builds = b :: bs →
      p.get_random_build none n = some (Build.payload (pick b bs n)) ∧
      pick b bs n ∈ p.builds) := by
  intro p tag n b bs
  constructor
  · intro htag hm
    have htr : strTruthy (some tag) = true := by
      simp [strTruthy, htag]
    constructor
    · unfold Pokemon.get_random_build
      rw [if_pos htr]
      rw [show (some tag).getD "" = tag from rfl, hm]
    · rw [hm]; exact pick_mem b bs n
  · intro hm
    constructor
    · unfold Pokemon.get_random_build
      rw [if_neg (show ¬ (strTruthy none = true) by decide)]
      rw [hm]
    · rw [hm]; exact pick_mem b bs n

/-- Witness for the amended C4 at a concrete entity and tag. -/
theorem get_random_build_amended_witness :
    (clefable.get_random_build (some "balance") 0 =
      some (Build.payload (pick (bal "Clefable set") [] 0)) ∧
      pick (bal "Clefable set") [] 0 ∈ matching_builds clefable "balance") ∧
    (clefable.get_random_build none 0 =
      some (Build.payload (pick (bal "Clefable set") [] 0)) ∧
      pick (bal "Clefable set") [] 0 ∈ clefable.builds) :=
  ⟨(get_random_build_amended clefable "balance" 0 (bal "Clefable set") []).1
      (by decide) (by decide),
   (get_random_build_amended clefable "balance" 0 (bal "Clefable set") []).2
      (by decide)⟩

/-- Claim C6: the coverage update run after a resistant-candidate append or
a padding append maps every tracked category through the rule of the
appended entity's multiplier: 0 jumps the count to the full requirement,
strictly between 0 and 1 increments it by one, and 1 or more leaves it. -/
theorem update_coverage_rule :
    ∀ (cov : List (TypeLabel × Nat)) (p : Pokemon) (t : TypeLabel) (c : Nat),
    List.lookup t cov = some c →
    List.lookup t (update_coverage cov p) = some (
      if p.resists_type t = 0 then reqOf t
      else if p.resists_type t < 1 then c + 1 else c) := by
  intro cov p t c h
  rw [covLookup_update, h]
  rfl

/-- Witness for C6: sylveon is immune to dragon, so an overshot dragon
count of 3 is sent back to the required 2. -/
theorem update_coverage_rule_witness :
    List.lookup "dragon" (update_coverage [("dragon", 3)] sylveon) = some 2 :=
  update_coverage_rule [("dragon", 3)] sylveon "dragon" 3 (by decide)

/-- Claim C7: when the priority category is ground and its coverage count is
exactly 0, the pass draws from the remaining candidates immune to ground;
when at least one exists, the pass appends the drawn entity (a member of the
immune candidate list, with multiplier 0 against ground) and assigns the
ground count its full required value before re-entering the loop. -/
theorem ground_immunity_shortcircuit :
    ∀ (pl : List Pokemon) (ps : Option String) (orc : Nat → Nat) (s : BTState)
      (q : Pokemon) (qs : List Pokemon),
    priority_of s.coverage = some "ground" →
    List.lookup "ground" s.coverage = some 0 →
    get_pokemon_with_immunity pl "ground" s.team ps = q :: qs →
    build_team_step pl ps orc s =
      .cont ⟨s.team ++ [pick q qs (orc s.k)], set_full s.coverage "ground", s.k + 1⟩ ∧
    pick q qs (orc s.k) ∈ q :: qs ∧
    (pick q qs (orc s.k)).resists_type "ground" = 0 ∧
    covLookup (set_full s.coverage "ground") "ground" = reqOf "ground" := by
  intro pl ps orc s q qs hp hg hi
  have hc : covLookup s.coverage "ground" = 0 := by
    unfold covLookup
    rw [hg]
    rfl
  refine ⟨?_, pick_mem q qs (orc s.k), ?_, ?_⟩
  · unfold priority_of at hp
    unfold build_team_step
    cases hm : unfulfilled_of s.coverage with
    | nil => rw [hm] at hp; exact absurd hp (by simp)
    | cons u us =>
        rw [hm] at hp
        have hpt : (maxByFirst (gap s.coverage) u us).1 = "ground" := by
          injection hp
        dsimp only
        rw [hpt]
        rw [if_pos ⟨rfl, hc⟩]
        rw [hi]
  · have hmem : pick q qs (orc s.k) ∈ get_pokemon_with_immunity pl "ground" s.team ps := by
      rw [hi]; exact pick_mem q qs (orc s.k)
    exact (mem_immunity_pool hmem).2.2.2
  · unfold covLookup
    rw [covLookup_set_full, hg]
    rfl

/-- Witness for C7 at the third pass of the demo run: the priority is
ground, the ground count is 0, and the immune candidate list is the
singleton tornadus. -/
theorem ground_immunity_shortcircuit_witness :
    build_team_step demo_catalog none orc0
        (BTState.mk [rotom, clefable]
          [("water", 1), ("fighting", 1), ("dragon", 2), ("flying", 1), ("electric", 1),
           ("ground", 0), ("dark", 1)] 2) =
      .cont ⟨[rotom, clefable] ++ [pick tornadus [] (orc0 2)],
             set_full
               [("water", 1), ("fighting", 1), ("dragon", 2), ("flying", 1), ("electric", 1),
                ("ground", 0), ("dark", 1)] "ground", 2 + 1⟩ ∧
    pick tornadus [] (orc0 2) ∈ [tornadus] ∧
    (pick tornadus [] (orc0 2)).resists_type "ground" = 0 ∧
    covLookup (set_full
      [("water", 1), ("fighting", 1), ("dragon", 2), ("flying", 1), ("electric", 1),
       ("ground", 0), ("dark", 1)] "ground") "ground" = reqOf "ground" :=
  ground_immunity_shortcircuit demo_catalog none orc0
    (BTState.mk [rotom, clefable]
      [("water", 1), ("fighting", 1), ("dragon", 2), ("flying", 1), ("electric", 1),
       ("ground", 0), ("dark", 1)] 2)
    tornadus [] (by decide) (by decide) (by decide)

/-- Claim C8: resists_type is the product of the per-category chart
multipliers of the entity's defending categories against the attack
category, absent pairs contributing 1; for an entity with two identical
categories it is the square of the single-category multiplier. -/
theorem resists_type_prod_and_square :
    (∀ (p : Pokemon) (atk : TypeLabel),
      p.resists_type atk = (p.types.map (fun t => (chartLookup t atk).getD 1)).prod) ∧
    (∀ (nm : String) (bs : List Build) (t atk : TypeLabel),
      (Pokemon.mk nm [t, t] bs).resists_type atk =
        ((Pokemon.mk nm [t] bs).resists_type atk) ^ 2) := by
  constructor
  · exact resists_eq_prod
  · intro nm bs t atk
    rw [resists_eq_prod, resists_eq_prod]
    simp [sq]

/-- Claim C9: the padding branches (entered when every requirement is met,
or when the single remaining deficit has no candidate) draw from
remaining_pool, which never consults the playstyle; the resistant and
immune candidate pools exclude entities without a matching build, while the
padding pool keeps every not-yet-chosen entity. -/
theorem padding_ignores_playstyle :
    (∀ (pl : List Pokemon) (ps : Option String) (orc : Nat → Nat) (s : BTState),
      unfulfilled_of s.coverage = [] →
      build_team_step pl ps orc s = pad_step pl orc s) ∧
    (∀ (pl : List Pokemon) (ps : Option String) (orc : Nat → Nat) (s : BTState)
       (u : TypeLabel × Nat),
      unfulfilled_of s.coverage = [u] →
      (if u.1 = "ground" ∧ covLookup s.coverage u.1 = 0
       then get_pokemon_with_immunity pl u.1 s.team ps else []) = [] →
      get_pokemon_with_resistance pl u.1 s.team ps = [] →
      build_team_step pl ps orc s = pad_step pl orc s) ∧
    (∀ (pl team : List Pokemon) (t : TypeLabel) (tag : String) (p : Pokemon),
      tag ≠ "" → p.has_matching_playstyle (some tag) = false →
      p ∉ get_pokemon_with_resistance pl t team (some tag) ∧
      p ∉ get_pokemon_with_immunity pl t team (some tag)) ∧
    (∀ (pl team : List Pokemon) (p : Pokemon),
      p ∈ pl → p.name ∉ team.map Pokemon.name → p ∈ remaining_pool pl team) := by
  refine ⟨?_, ?_, ?_, ?_⟩
  · intro pl ps orc s h
    unfold build_team_step
    rw [h]
  · intro pl ps orc s u h1 h2 h3
    unfold build_team_step
    rw [h1]
    dsimp only [maxByFirst]
    rw [h2]
    dsimp only
    rw [h3]
  · intro pl team t tag p htag hmatch
    constructor
    · intro hmem
      have h4 := (mem_resistance_pool hmem).2.2.1
      rw [hmatch] at h4
      simp [strTruthy, htag] at h4
    · intro hmem
      have h4 := (mem_immunity_pool hmem).2.2.1
      rw [hmatch] at h4
      simp [strTruthy, htag] at h4
  · intro pl team p hp hname
    have hc : (team.map Pokemon.name).contains p.name = false := by
      simpa using hname
    exact mem_remaining_pool.mpr ⟨hp, hc⟩

/-- Witness for C9: a state with every requirement met pads regardless of
the playstyle; a state whose only deficit (dark) has no candidate pads as
well; clefable lacks a stall build so the filtered pools exclude it while
the padding pool keeps it. -/
theorem padding_ignores_playstyle_witness :
    build_team_step [rotom] (some "stall") orc0
        (BTState.mk []
          [("water", 2), ("fighting", 2), ("dragon", 2), ("flying", 1), ("electric", 2),
           ("ground", 2), ("dark", 1)] 0) =
      pad_step [rotom] orc0
        (BTState.mk []
          [("water", 2), ("fighting", 2), ("dragon", 2), ("flying", 1), ("electric", 2),
           ("ground", 2), ("dark", 1)] 0) ∧
    build_team_step [snorlax] (some "stall") orc0
        (BTState.mk []
          [("water", 2), ("fighting", 2), ("dragon", 2), ("flying", 1), ("electric", 2),
           ("ground", 2), ("dark", 0)] 0) =
      pad_step [snorlax] orc0
        (BTState.mk []
          [("water", 2), ("fighting", 2), ("dragon", 2), ("flying", 1), ("electric", 2),
           ("ground", 2), ("dark", 0)] 0) ∧
    (clefable ∉ get_pokemon_with_resistance [clefable] "fighting" [] (some "stall") ∧
      clefable ∉ get_pokemon_with_immunity [clefable] "fighting" [] (some "stall")) ∧
    clefable ∈ remaining_pool [clefable] [] :=
  ⟨padding_ignores_playstyle.1 [rotom] (some "stall") orc0
      (BTState.mk []
        [("water", 2), ("fighting", 2), ("dragon", 2), ("flying", 1), ("electric", 2),
         ("ground", 2), ("dark", 1)] 0) (by decide),
   padding_ignores_playstyle.2.1 [snorlax] (some "stall") orc0
      (BTState.mk []
        [("water", 2), ("fighting", 2), ("dragon", 2), ("flying", 1), ("electric", 2),
         ("ground", 2), ("dark", 0)] 0) ("dark", 1) (by decide) (by decide) (by decide),
   padding_ignores_playstyle.2.2.1 [clefable] [] "fighting" "stall" clefable
      (by decide) (by decide),
   padding_ignores_playstyle.2.2.2 [clefable] [] clefable (by decide) (by decide)⟩

/-- Claim C10: a defending category absent from the chart contributes the
neutral factor 1 to resists_type; an entity whose categories are all
outside the chart vocabulary has multiplier exactly 1 against every attack
category, hence never enters the resistant or immune candidate pools. -/
theorem unknown_types_neutral :
    (∀ (nm : String) (bs : List Build) (ts1 ts2 : List TypeLabel) (t atk : TypeLabel),
      TYPE_CHART.lookup t = none →
      (Pokemon.mk nm (ts1 ++ t :: ts2) bs).resists_type atk =
        (Pokemon.mk nm (ts1 ++ ts2) bs).resists_type atk) ∧
    (∀ (p : Pokemon) (atk : TypeLabel) (pl team : List Pokemon) (ps : Option String),
      (∀ t ∈ p.types, TYPE_CHART.lookup t = none) →
      p.resists_type atk = 1 ∧
      p ∉ get_pokemon_with_resistance pl atk team ps ∧
      p ∉ get_pokemon_with_immunity pl atk team ps) := by
  constructor
  · intro nm bs ts1 ts2 t atk h
    rw [resists_eq_prod, resists_eq_prod]
    simp [chartLookup, h]
  · intro p atk pl team ps h
    have h1 : p.resists_type atk = 1 := by
      rw [resists_eq_prod]
      apply List.prod_eq_one
      intro x hx
      obtain ⟨t, ht, rfl⟩ := List.mem_map.mp hx
      rw [chartLookup, h t ht]
      rfl
    refine ⟨h1, ?_, ?_⟩
    · intro hmem
      have h2 := (mem_resistance_pool hmem).2.2.2
      rw [h1] at h2
      exact lt_irrefl 1 h2
    · intro hmem
      have h2 := (mem_immunity_pool hmem).2.2.2
      rw [h1] at h2
      exact one_ne_zero h2

/-- Witness for C10 with an entity whose categories are outside the chart
vocabulary. -/
theorem unknown_types_neutral_witness :
    (Pokemon.mk "m" ["glitch", "water"] []).resists_type "fire" =
      (Pokemon.mk "m" ["water"] []).resists_type "fire" ∧
    missingno.resists_type "water" = 1 ∧
    missingno ∉ get_pokemon_with_resistance [missingno] "water" [] none ∧
    missingno ∉ get_pokemon_with_immunity [missingno] "water" [] none :=
  ⟨unknown_types_neutral.1 "m" [] [] ["water"] "glitch" "fire" (by decide),
   (unknown_types_neutral.2 missingno "water" [missingno] [] none (by decide)).1,
   (unknown_types_neutral.2 missingno "water" [missingno] [] none (by decide)).2.1,
   (unknown_types_neutral.2 missingno "water" [missingno] [] none (by decide)).2.2⟩
